import Mathlib

/-!
Verification of the openapi-fuzzer core (src/main.rs) against its
natural-language specification.  The Rust program is shallowly embedded:
pure functions become Lean functions, the `arbitrary` byte stream becomes an
explicit state value threaded through the generators, Rust `Result` becomes
`Except`, and a `todo!()` panic is modelled as a distinguished failure value
that no caller of the embedded code catches.
-/

/-- JSON values as built by the program via serde_json.  A floating point
number is carried as its IEEE-754 bit pattern (a `Nat` below `2 ^ 64`):
serde_json turns a non-finite f64 into `null`, which `json_of_f64_bits`
reproduces from the bit pattern alone, so no floating point arithmetic is
needed. -/
inductive Json where
  | null
  | bool (b : Bool)
  | num (bits : Nat)
  | int (n : Int)
  | str (s : String)
  | arr (elems : List Json)
  | obj (fields : List (String × Json))
deriving Repr

/-- Failure of a generation call.  `panicked` embeds a Rust panic (the
`todo!()` macro): it unwinds past every caller and aborts the process, since
`main` installs no panic handler.  `recoverable` embeds an ordinary
`Result::Err` value, which a caller can match on. -/
inductive GenFailure where
  | panicked (msg : String)
  | recoverable (msg : String)
deriving Repr, DecidableEq

/-- Message of the Rust `todo!()` macro. -/
def todo_msg : String := "not yet implemented"

/-- The `arbitrary` crate's `Unstructured`: a finite stream of bytes consumed
from the front. -/
structure Unstructured where
  data : List Nat
deriving Repr, DecidableEq

/-- Embeds `Unstructured::fill_buffer` of the `arbitrary` crate (v1): copies
up to `n` available bytes, zero-fills the rest of the buffer, and never
fails. -/
def fill_buffer (u : Unstructured) (n : Nat) : List Nat × Unstructured :=
  (u.data.take n ++ List.replicate (n - u.data.length) 0, ⟨u.data.drop n⟩)

/-- Little-endian byte list to natural number, as `u64::from_le_bytes`. -/
def le_bytes_to_nat : List Nat → Nat
  | [] => 0
  | b :: bs => b % 256 + 256 * le_bytes_to_nat bs

/-- Embeds `u64::arbitrary`: eight little-endian bytes. -/
def u64_arbitrary (u : Unstructured) : Nat × Unstructured :=
  let (bs, u') := fill_buffer u 8
  (le_bytes_to_nat bs, u')

/-- Embeds `i64::arbitrary`: eight little-endian bytes read as two's
complement. -/
def i64_arbitrary (u : Unstructured) : Int × Unstructured :=
  let (bits, u') := u64_arbitrary u
  (if bits < 2 ^ 63 then (bits : Int) else (bits : Int) - 2 ^ 64, u')

/-- Embeds `f64::arbitrary`: eight bytes giving the IEEE-754 bit pattern
(`f64::from_bits` of `u64::arbitrary`). -/
def f64_arbitrary (u : Unstructured) : Nat × Unstructured :=
  u64_arbitrary u

/-- Embeds `u8::arbitrary`: one byte. -/
def u8_arbitrary (u : Unstructured) : Nat × Unstructured :=
  let (bs, u') := fill_buffer u 1
  (le_bytes_to_nat bs, u')

/-- Embeds `bool::arbitrary`: low bit of one byte. -/
def bool_arbitrary (u : Unstructured) : Bool × Unstructured :=
  let (b, u') := u8_arbitrary u
  (b % 2 == 1, u')

/-- Modelled from the external `arbitrary` crate's `String::arbitrary`: one
byte chooses a length, that many bytes become characters.  No claim depends
on the decoded string's value, only on the fact that a string is produced
and the stream advances deterministically. -/
def string_arbitrary (u : Unstructured) : String × Unstructured :=
  let (len_bytes, u') := fill_buffer u 1
  let n := le_bytes_to_nat len_bytes
  let (bs, u'') := fill_buffer u' n
  (String.mk (bs.map (fun b => Char.ofNat (b % 256))), u'')

/-- An f64 bit pattern is non-finite exactly when its exponent field is all
ones; serde_json's `json!` of a non-finite f64 is `Value::Null`, of a finite
one a JSON number. -/
def json_of_f64_bits (bits : Nat) : Json :=
  if bits / 2 ^ 52 % 2 ^ 11 = 2 ^ 11 - 1 then Json.null else Json.num bits

mutual

/-- Embeds the openapiv3 `SchemaKind` as consumed by the program: the
payloads of `OneOf`/`AnyOf`/`AllOf`/`Any` are matched with `..` in the source
and never read, so they are not carried here. -/
inductive SchemaKind where
  | any
  | type (t : SchemaType)
  | oneOf
  | anyOf
  | allOf

/-- Embeds the openapiv3 `Type`, with references already resolved (the
source always goes through `to_item_ref`). -/
inductive SchemaType where
  | string
  | number
  | integer
  | object (properties : List (String × SchemaKind))
  | array (items : SchemaKind) (min_items : Option Nat) (max_items : Option Nat)
  | boolean

end

/-- Map insertion as `serde_json::Map::insert`: overwrite the value when the
key is present, otherwise add the entry. -/
def map_insert (m : List (String × Json)) (k : String) (v : Json) :
    List (String × Json) :=
  if m.any (fun e => e.1 == k) then
    m.map (fun e => if e.1 == k then (k, v) else e)
  else
    m ++ [(k, v)]

mutual

/-- Embeds `schema_kind_to_json` (src/main.rs:88): the `todo!()` arms for
`Any`, `OneOf`, `AnyOf`, `AllOf` are panics, not `Err` values. -/
def schema_kind_to_json : SchemaKind → Unstructured →
    Except GenFailure (Json × Unstructured)
  | SchemaKind.any, _ => Except.error (GenFailure.panicked todo_msg)
  | SchemaKind.type t, g => schema_type_to_json t g
  | SchemaKind.oneOf, _ => Except.error (GenFailure.panicked todo_msg)
  | SchemaKind.anyOf, _ => Except.error (GenFailure.panicked todo_msg)
  | SchemaKind.allOf, _ => Except.error (GenFailure.panicked todo_msg)
termination_by sk _ => (sizeOf sk, 0)

/-- Embeds `schema_type_to_json` (src/main.rs:77). -/
def schema_type_to_json : SchemaType → Unstructured →
    Except GenFailure (Json × Unstructured)
  | SchemaType.string, g =>
    let (s, g') := string_arbitrary g
    Except.ok (Json.str s, g')
  | SchemaType.number, g =>
    let (bits, g') := f64_arbitrary g
    Except.ok (json_of_f64_bits bits, g')
  | SchemaType.integer, g =>
    let (n, g') := i64_arbitrary g
    Except.ok (Json.int n, g')
  | SchemaType.object props, g =>
    match generate_json_fields props [] g with
    | Except.error e => Except.error e
    | Except.ok (fields, g') => Except.ok (Json.obj fields, g')
  | SchemaType.array items mn mx, g =>
    match generate_json_elems items (mx.getD 10 + 1 - mn.getD 1) g with
    | Except.error e => Except.error e
    | Except.ok (elems, g') => Except.ok (Json.arr elems, g')
  | SchemaType.boolean, g =>
    let (b, g') := bool_arbitrary g
    Except.ok (Json.bool b, g')
termination_by t _ => (sizeOf t, 0)

/-- Embeds the loop body of `generate_json_object` (src/main.rs:59): fold
over the declared properties, inserting each generated value under the
property's name, stopping at the first failure. -/
def generate_json_fields : List (String × SchemaKind) → List (String × Json) →
    Unstructured → Except GenFailure (List (String × Json) × Unstructured)
  | [], acc, g => Except.ok (acc, g)
  | (name, sk) :: rest, acc, g =>
    match schema_kind_to_json sk g with
    | Except.error e => Except.error e
    | Except.ok (v, g') => generate_json_fields rest (map_insert acc name v) g'
termination_by props _ _ => (sizeOf props, 0)

/-- Embeds the element generation of `generate_json_array` (src/main.rs:68):
the source iterates `(min..=max).map(..).collect::<Result<_>>()`, producing
one element per integer of the range, i.e. `max + 1 - min` elements (none
when `min > max`), stopping at the first failure. -/
def generate_json_elems (items : SchemaKind) : Nat → Unstructured →
    Except GenFailure (List Json × Unstructured)
  | 0, g => Except.ok ([], g)
  | n + 1, g =>
    match schema_kind_to_json items g with
    | Except.error e => Except.error e
    | Except.ok (v, g') =>
      match generate_json_elems items n g' with
      | Except.error e => Except.error e
      | Except.ok (vs, g'') => Except.ok (v :: vs, g'')
termination_by n _ => (sizeOf items, n)

end

/-- Embeds the openapiv3 `ParameterData`: only the name is read by the
program. -/
structure ParameterData where
  name : String
deriving Repr, DecidableEq

/-- Embeds the openapiv3 `Parameter` locations matched in `prepare_request`
(src/main.rs:118). -/
inductive Parameter where
  | query (d : ParameterData)
  | path (d : ParameterData)
  | header (d : ParameterData)
  | cookie (d : ParameterData)
deriving Repr, DecidableEq

/-- Embeds the openapiv3 `MediaType`: only the optional schema is read. -/
structure MediaType where
  schema : Option SchemaKind

/-- Embeds the openapiv3 `RequestBody`: the content map, iterated in
declaration order (an IndexMap in the source). -/
structure RequestBody where
  content : List (String × MediaType)

/-- Embeds the openapiv3 `StatusCode` key of the responses map: either a
concrete code or a range such as 2XX. -/
inductive StatusCode where
  | code (n : Nat)
  | range (n : Nat)
deriving Repr, DecidableEq

/-- Embeds the openapiv3 `Operation` fields read by the program: parameters,
optional request body, and the responses key set (only keys are consulted,
in declaration order). -/
structure Operation where
  parameters : List Parameter
  request_body : Option RequestBody
  responses : List StatusCode

/-- Embeds the `Payload` struct (src/main.rs:24). -/
structure Payload where
  method : String
  path : String
  query_params : List (String × String)
  path_params : List (String × String)
  headers : List (String × String)
  cookies : List (String × String)
  body : List Json
  responses : List StatusCode

/-- Embeds the parameter loop of `prepare_request` (src/main.rs:118): each
declared parameter consumes one `String::arbitrary` value and is pushed, in
order, onto the bucket named by its location. -/
def collect_params : List Parameter → Unstructured →
    (List (String × String) × List (String × String) ×
     List (String × String) × List (String × String)) × Unstructured
  | [], g => (([], [], [], []), g)
  | p :: rest, g =>
    let (value, g') := string_arbitrary g
    let ((q, pa, h, c), g'') := collect_params rest g'
    match p with
    | Parameter.query d => (((d.name, value) :: q, pa, h, c), g'')
    | Parameter.path d => ((q, (d.name, value) :: pa, h, c), g'')
    | Parameter.header d => ((q, pa, (d.name, value) :: h, c), g'')
    | Parameter.cookie d => ((q, pa, h, (d.name, value) :: c), g'')

/-- Embeds the body generation of `prepare_request` (src/main.rs:135): the
content map is traversed in order, every entry that has a schema contributes
one generated value (entries without a schema are flattened away), and the
collect stops at the first failure. -/
def generate_body : List (String × MediaType) → Unstructured →
    Except GenFailure (List Json × Unstructured)
  | [], g => Except.ok ([], g)
  | (_, media) :: rest, g =>
    match media.schema with
    | none => generate_body rest g
    | some sk =>
      match schema_kind_to_json sk g with
      | Except.error e => Except.error e
      | Except.ok (v, g') =>
        match generate_body rest g' with
        | Except.error e => Except.error e
        | Except.ok (vs, g'') => Except.ok (v :: vs, g'')

/-- Embeds `prepare_request` (src/main.rs:101).  The 1024 random bytes the
source draws from `thread_rng` are passed in as `fuzzer_input`, making the
external randomness an explicit argument. -/
def prepare_request (method path : String) (op : Operation)
    (fuzzer_input : List Nat) : Except GenFailure Payload :=
  let g : Unstructured := ⟨fuzzer_input⟩
  let ((q, pa, h, c), g') := collect_params op.parameters g
  match op.request_body with
  | none =>
    Except.ok
      { method := method, path := path, query_params := q, path_params := pa,
        headers := h, cookies := c, body := [], responses := op.responses }
  | some rb =>
    match generate_body rb.content g' with
    | Except.error e => Except.error e
    | Except.ok (vs, _) =>
      Except.ok
        { method := method, path := path, query_params := q, path_params := pa,
          headers := h, cookies := c, body := vs, responses := op.responses }

/-- Core of Rust `str::replace` on character lists: replace every
non-overlapping occurrence of the nonempty pattern `p :: ps` by `rep`,
scanning left to right.  `fuel` only bounds the recursion and is always
called with `fuel = length of the scanned list`, which the scan never
exceeds, so the zero-fuel arm is unreachable. -/
def replace_go (p : Char) (ps rep : List Char) : Nat → List Char → List Char
  | _, [] => []
  | 0, s => s
  | fuel + 1, c :: rest =>
    if (p :: ps).isPrefixOf (c :: rest) then
      rep ++ replace_go p ps rep fuel (rest.drop ps.length)
    else
      c :: replace_go p ps rep fuel rest

/-- Embeds Rust `str::replace` as used in `send_request` (src/main.rs:39).
The empty-pattern case never arises: the program's patterns always have the
shape of a brace-wrapped name. -/
def str_replace (s pat rep : String) : String :=
  match pat.data with
  | [] => s
  | p :: ps => String.mk (replace_go p ps rep.data s.data.length s.data)

/-- Embeds the substitution loop of `send_request` (src/main.rs:38): for
each path parameter in order, replace every occurrence of the brace-wrapped
name in the path. -/
def substitute_path_params (path : String) (params : List (String × String)) :
    String :=
  params.foldl (fun acc nv => str_replace acc ("\x7b" ++ nv.1 ++ "\x7d") nv.2) path

/-- The concrete HTTP request assembled by `send_request` before it is
handed to the transport: method, joined URL, substituted path, query
entries, headers, and the optional JSON body. -/
structure BuiltRequest where
  method : String
  url : String
  path : String
  query : List (String × String)
  headers : List (String × String)
  body : Option Json
deriving Repr

/-- Modelled from the external url crate: `Url::join` of a well-formed base
with the relative paths this program produces; represented as concatenation
and never failing, since no claim depends on the crate's segment
normalization. -/
def url_join (base rel : String) : Except String String :=
  Except.ok (base ++ rel)

/-- Embeds the request-building part of `send_request` (src/main.rs:36):
substitute path parameters, join with the base URL, attach query parameters
and headers, and attach `body[0]` as JSON body exactly when the body vector
is non-empty.  The cookies field of the payload is not consulted anywhere in
the source function. -/
def send_request (base : String) (p : Payload) : Except String BuiltRequest :=
  let path_with_params := substitute_path_params p.path p.path_params
  match url_join base path_with_params with
  | Except.error e => Except.error e
  | Except.ok u =>
    Except.ok
      { method := p.method, url := u, path := path_with_params,
        query := p.query_params, headers := p.headers, body := p.body.head? }

/-- The anomaly signal of `check_response` (src/main.rs:161): the printed
diagnostic carries the unexpected status code. -/
structure Anomaly where
  status : Nat
deriving Repr, DecidableEq

/-- Embeds `check_response` (src/main.rs:161): look up the concrete status
code among the keys of the operation's declared responses; print an anomaly
naming the status exactly when it is absent. -/
def check_response (status : Nat) (p : Payload) : Option Anomaly :=
  if StatusCode.code status ∈ p.responses then none else some ⟨status⟩

/-- Embeds the openapiv3 `PathItem` fields read by `create_fuzz_payload`. -/
structure PathItem where
  get : Option Operation := none
  put : Option Operation := none
  post : Option Operation := none
  delete : Option Operation := none
  options : Option Operation := none
  head : Option Operation := none
  patch : Option Operation := none
  trace : Option Operation := none

/-- Embeds the loop of `create_fuzz_payload` (src/main.rs:190): prepare one
payload per present operation, in the fixed method order, propagating the
first failure (the `?` on `prepare_request`). -/
def collect_payloads (path : String) (fuzzer_input : List Nat) :
    List (String × Option Operation) → Except GenFailure (List Payload)
  | [] => Except.ok []
  | (_, none) :: rest => collect_payloads path fuzzer_input rest
  | (m, some op) :: rest =>
    match prepare_request m path op fuzzer_input with
    | Except.error e => Except.error e
    | Except.ok p =>
      match collect_payloads path fuzzer_input rest with
      | Except.error e => Except.error e
      | Except.ok ps => Except.ok (p :: ps)

/-- Embeds `create_fuzz_payload` (src/main.rs:176) with its fixed method
table.  The fresh random buffer the source draws per operation is passed in
as `fuzzer_input` and reused for each operation, which is adequate because
no claim compares values across operations. -/
def create_fuzz_payload (path : String) (item : PathItem)
    (fuzzer_input : List Nat) : Except GenFailure (List Payload) :=
  collect_payloads path fuzzer_input
    [("GET", item.get), ("PUT", item.put), ("POST", item.post),
     ("DELETE", item.delete), ("OPTIONS", item.options), ("HEAD", item.head),
     ("PATCH", item.patch), ("TRACE", item.trace)]

/-- Outcome of the external transport for one built request: a response with
a status code, or a transport failure. -/
inductive SendOutcome where
  | response (status : Nat)
  | transport_failure (msg : String)

/-- Per-payload outcome of one iteration of the inner loop of `main`
(src/main.rs:210): a checked response (with its optional anomaly), or a
logged send failure that the `match` in `main` catches. -/
inductive PayloadOutcome where
  | checked (a : Option Anomaly)
  | send_failure (msg : String)
deriving Repr, DecidableEq

/-- Embeds the body of the inner `for` of `main` (src/main.rs:210): build
and send the request, catching build/transport failures, and check the
response status otherwise.  `net` is the external network. -/
def process_payload (base : String) (net : BuiltRequest → SendOutcome)
    (p : Payload) : PayloadOutcome :=
  match send_request base p with
  | Except.error e => PayloadOutcome.send_failure e
  | Except.ok req =>
    match net req with
    | SendOutcome.transport_failure e => PayloadOutcome.send_failure e
    | SendOutcome.response status => PayloadOutcome.checked (check_response status p)

/-- Embeds one pass of the infinite `loop` of `main` (src/main.rs:206):
walk every path, where `create_fuzz_payload(path, item)?` propagates any
generation failure out of the loop — and hence out of `main`, terminating
the process — while send failures are caught per payload. -/
def fuzz_pass (base : String) (net : BuiltRequest → SendOutcome)
    (fuzzer_input : List Nat) :
    List (String × PathItem) → Except GenFailure (List PayloadOutcome)
  | [] => Except.ok []
  | (path, item) :: rest =>
    match create_fuzz_payload path item fuzzer_input with
    | Except.error e => Except.error e
    | Except.ok payloads =>
      match fuzz_pass base net fuzzer_input rest with
      | Except.error e => Except.error e
      | Except.ok os => Except.ok (payloads.map (process_payload base net) ++ os)

/-- True exactly on the recoverable (caller-handleable) failure constructor;
false on a panic, which aborts the process. -/
def GenFailure.is_recoverable : GenFailure → Bool
  | GenFailure.panicked _ => false
  | GenFailure.recoverable _ => true

/-- A request body declaring two content types, each carrying a boolean
schema. -/
def rb_two_content : RequestBody :=
  ⟨[("application/json", ⟨some (SchemaKind.type SchemaType.boolean)⟩),
    ("text/plain", ⟨some (SchemaKind.type SchemaType.boolean)⟩)]⟩

/-- An operation declaring the two-content-type body. -/
def op_two_content : Operation := ⟨[], some rb_two_content, [StatusCode.code 200]⟩

/-- A request body declaring a single content type with a boolean schema. -/
def rb_one_content : RequestBody :=
  ⟨[("application/json", ⟨some (SchemaKind.type SchemaType.boolean)⟩)]⟩

/-- An operation declaring the single-content-type body. -/
def op_one_content : Operation := ⟨[], some rb_one_content, [StatusCode.code 200]⟩

/-- The payload `prepare_request` produces for `op_one_content` from an empty
byte stream. -/
def payload_one_content : Payload :=
  { method := "POST", path := "/x", query_params := [], path_params := [],
    headers := [], cookies := [], body := [Json.bool false],
    responses := [StatusCode.code 200] }

/-- A request body whose only content type carries a OneOf schema. -/
def rb_oneOf : RequestBody := ⟨[("application/json", ⟨some SchemaKind.oneOf⟩)]⟩

/-- An operation whose body schema is OneOf. -/
def op_oneOf_body : Operation := ⟨[], some rb_oneOf, [StatusCode.code 200]⟩

/-- An operation with no parameters and no request body. -/
def op_no_body : Operation := ⟨[], none, [StatusCode.code 200]⟩

/-- A path item whose only operation has a OneOf body schema. -/
def item_oneOf : PathItem := { get := some op_oneOf_body }

/-- A path item whose only operation is plain (no body). -/
def item_plain : PathItem := { get := some op_no_body }

/-- A payload over the template `/pets/{id}/{owner}` with both path
parameters bound. -/
def payload_pets : Payload :=
  { method := "GET", path := "/pets/\x7bid\x7d/\x7bowner\x7d", query_params := [],
    path_params := [("id", "42"), ("owner", "ann")], headers := [], cookies := [],
    body := [], responses := [StatusCode.code 200] }

/-- A payload over the template `/pets/{id}` whose path parameters do not
bind `id`, leaving the placeholder unresolved. -/
def payload_unres : Payload :=
  { method := "GET", path := "/pets/\x7bid\x7d", query_params := [],
    path_params := [("owner", "ann")], headers := [], cookies := [],
    body := [], responses := [StatusCode.code 200] }

/-- A payload whose operation declares the status codes 200 and 404. -/
def payload_decl : Payload :=
  { method := "GET", path := "/health", query_params := [], path_params := [],
    headers := [], cookies := [], body := [],
    responses := [StatusCode.code 200, StatusCode.code 404] }

theorem map_insert_fresh (m : List (String × Json)) (k : String) (v : Json)
    (h : k ∉ m.map Prod.fst) : map_insert m k v = m ++ [(k, v)] := by
  unfold map_insert
  rw [if_neg]
  simp only [List.any_eq_true, beq_iff_eq, not_exists, not_and]
  intro e he
  intro hek
  exact h (List.mem_map.mpr ⟨e, he, hek⟩)

theorem generate_json_fields_keys (props : List (String × SchemaKind)) :
    ∀ (acc : List (String × Json)) (g g' : Unstructured) (fields : List (String × Json)),
      (acc.map Prod.fst ++ props.map Prod.fst).Nodup →
      generate_json_fields props acc g = Except.ok (fields, g') →
      fields.map Prod.fst = acc.map Prod.fst ++ props.map Prod.fst := by
  induction props with
  | nil =>
    intro acc g g' fields _ h
    simp only [generate_json_fields] at h
    cases h
    simp
  | cons hd tl ih =>
    intro acc g g' fields hnd h
    obtain ⟨name, sk⟩ := hd
    simp only [generate_json_fields] at h
    split at h
    · simp at h
    · rename_i v g1 heq
      have hfresh : name ∉ acc.map Prod.fst := by
        intro hmem
        have hdisj := List.disjoint_of_nodup_append (by simpa using hnd)
        exact hdisj hmem (List.mem_cons_self _ _)
      rw [map_insert_fresh acc name v hfresh] at h
      have hnd' : ((acc ++ [(name, v)]).map Prod.fst ++ tl.map Prod.fst).Nodup := by
        rw [List.map_append, List.append_assoc]
        simpa using hnd
      have hkeys := ih (acc ++ [(name, v)]) g1 g' fields hnd' h
      rw [hkeys, List.map_append, List.append_assoc]
      simp

theorem generate_body_length (content : List (String × MediaType)) :
    ∀ (g g' : Unstructured) (vs : List Json),
      generate_body content g = Except.ok (vs, g') →
      vs.length = (content.filter (fun e => e.2.schema.isSome)).length := by
  induction content with
  | nil =>
    intro g g' vs h
    simp only [generate_body] at h
    cases h
    simp
  | cons hd tl ih =>
    intro g g' vs h
    obtain ⟨nm, media⟩ := hd
    simp only [generate_body] at h
    split at h
    · rename_i hs
      have := ih _ _ _ h
      simp [List.filter_cons, hs, this]
    · rename_i sk hs
      split at h
      · simp at h
      · rename_i v g1 heq
        split at h
        · simp at h
        · rename_i vs1 g2 heq2
          cases h
          have := ih _ _ _ heq2
          simp [List.filter_cons, hs, this]

/-- C1: the claim says every generated array's length lies in the inclusive
range given by min_items and max_items.  The source instead builds one
element per integer of the range `min..=max`, i.e. always `max + 1 - min`
elements; for the schema with min_items = 0, max_items = 10 and boolean
items this yields an array of length 11, outside [0, 10], so the code
contradicts the specified range even though 0 ≤ 10. -/
theorem C1_array_length_escapes_declared_range :
    schema_type_to_json
        (SchemaType.array (SchemaKind.type SchemaType.boolean) (some 0) (some 10)) ⟨[]⟩
      = Except.ok (Json.arr (List.replicate 11 (Json.bool false)), ⟨[]⟩)
    ∧ (List.replicate 11 (Json.bool false)).length = 11
    ∧ ¬ (11 ≤ 10) := by
  refine ⟨?_, by simp, by decide⟩
  simp [schema_type_to_json, generate_json_elems, schema_kind_to_json,
    bool_arbitrary, u8_arbitrary, fill_buffer, le_bytes_to_nat, List.replicate]

/-- C2: the claim says generation of OneOf/AnyOf/AllOf/Any schema kinds
fails with a recoverable error result the caller can handle.  In the source
each of these arms is `todo!()`, a panic that unwinds out of the whole
program (no caller installs a handler), modelled as the non-recoverable
`GenFailure.panicked` value, distinct from every `recoverable` error. -/
theorem C2_unsupported_kinds_panic_not_recoverable (g : Unstructured) :
    schema_kind_to_json SchemaKind.oneOf g = Except.error (GenFailure.panicked todo_msg)
    ∧ schema_kind_to_json SchemaKind.anyOf g = Except.error (GenFailure.panicked todo_msg)
    ∧ schema_kind_to_json SchemaKind.allOf g = Except.error (GenFailure.panicked todo_msg)
    ∧ schema_kind_to_json SchemaKind.any g = Except.error (GenFailure.panicked todo_msg)
    ∧ (GenFailure.panicked todo_msg).is_recoverable = false := by
  refine ⟨?_, ?_, ?_, ?_, rfl⟩ <;> simp [schema_kind_to_json]

/-- C3: response validation flags an anomaly exactly when the actual status
code, wrapped as a concrete code key, is absent from the operation's
declared responses key set, and the emitted anomaly carries that status. -/
theorem C3_anomaly_iff_status_undeclared (status : Nat) (p : Payload) :
    (check_response status p = none ↔ StatusCode.code status ∈ p.responses)
    ∧ (StatusCode.code status ∉ p.responses →
        check_response status p = some ⟨status⟩) := by
  unfold check_response
  constructor
  · constructor
    · intro h
      by_contra hn
      simp [hn] at h
    · intro h
      simp [h]
  · intro h
    simp [h]

/-- C3 witness: with declared statuses 200 and 404, status 200 yields no
anomaly and status 500 yields the anomaly carrying 500. -/
theorem C3_anomaly_iff_status_undeclared_witness :
    check_response 200 payload_decl = none
    ∧ check_response 500 payload_decl = some ⟨500⟩ :=
  ⟨(C3_anomaly_iff_status_undeclared 200 payload_decl).1.mpr (by decide),
   (C3_anomaly_iff_status_undeclared 500 payload_decl).2 (by decide)⟩

/-- C10: there is a byte stream for which the Number arm yields JSON null:
eight 0xFF bytes decode to an f64 bit pattern whose exponent field is all
ones (a NaN), and serde_json serializes a non-finite f64 as null, not as a
number. -/
theorem C10_number_schema_can_yield_null :
    ∃ (bytes : List Nat) (g' : Unstructured),
      schema_type_to_json SchemaType.number ⟨bytes⟩ = Except.ok (Json.null, g') := by
  refine ⟨List.replicate 8 255, ⟨[]⟩, ?_⟩
  simp [schema_type_to_json, f64_arbitrary, u64_arbitrary, fill_buffer,
    le_bytes_to_nat, json_of_f64_bits, List.replicate]

/-- C4: the claim says payload-local errors never abort the fuzz loop or the
process.  In `main` the call `create_fuzz_payload(path, item)?` sits inside
the loop, so a generation failure (here the OneOf body panic) escalates out
of the pass — the second path is never processed and the process dies —
while a transport failure is indeed caught per payload (second conjunct),
so the claim fails on the generation-local case. -/
theorem C4_payload_local_failure_escalates :
    fuzz_pass "http://host" (fun _ => SendOutcome.response 200) []
        [("/a", item_oneOf), ("/b", item_plain)]
      = Except.error (GenFailure.panicked todo_msg)
    ∧ process_payload "http://host"
        (fun _ => SendOutcome.transport_failure "connection refused") payload_decl
      = PayloadOutcome.send_failure "connection refused" := by
  constructor
  · simp [fuzz_pass, create_fuzz_payload, collect_payloads, prepare_request,
      collect_params, generate_body, schema_kind_to_json, item_oneOf,
      op_oneOf_body, rb_oneOf]
  · rfl

/-- C5 counterexample: for an operation declaring two content types, both
with a schema, the prepared payload's body holds two generated values, so
the claimed invariant that the body count is 0 or 1 is false on the code. -/
theorem C5_body_holds_two_values :
    prepare_request "POST" "/x" op_two_content []
      = Except.ok
          { method := "POST", path := "/x", query_params := [],
            path_params := [], headers := [], cookies := [],
            body := [Json.bool false, Json.bool false],
            responses := [StatusCode.code 200] }
    ∧ ¬ ([Json.bool false, Json.bool false].length ≤ 1) := by
  constructor
  · simp [prepare_request, collect_params, op_two_content, rb_two_content,
      generate_body, schema_kind_to_json, schema_type_to_json, bool_arbitrary,
      u8_arbitrary, fill_buffer, le_bytes_to_nat]
  · decide

/-- C5 amended: the payload's body holds one generated value per declared
content type that carries a schema (so its count equals that number rather
than being at most 1), and only the first value, body[0], is realized into
the sent request body. -/
theorem C5_amended_body_per_content_type (m pth base : String) (op : Operation)
    (bytes : List Nat) (rb : RequestBody) (p : Payload)
    (hrb : op.request_body = some rb)
    (h : prepare_request m pth op bytes = Except.ok p) :
    p.body.length = (rb.content.filter (fun e => e.2.schema.isSome)).length
    ∧ ∃ r, send_request base p = Except.ok r ∧ r.body = p.body.head? := by
  simp only [prepare_request] at h
  rcases hcp : collect_params op.parameters ⟨bytes⟩ with ⟨⟨q, pa, hdrs, cs⟩, g1⟩
  rw [hcp, hrb] at h
  dsimp only at h
  cases hgb : generate_body rb.content g1 with
  | error e =>
    rw [hgb] at h
    simp at h
  | ok pr =>
    obtain ⟨vs, g2⟩ := pr
    rw [hgb] at h
    simp at h
    subst h
    constructor
    · simpa using generate_body_length rb.content g1 g2 vs hgb
    · exact ⟨_, rfl, rfl⟩

/-- C5 amended, witness: with one declared content type carrying a boolean
schema, the body holds exactly one value and the request carries it. -/
theorem C5_amended_body_per_content_type_witness :
    payload_one_content.body.length
        = (rb_one_content.content.filter (fun e => e.2.schema.isSome)).length
    ∧ ∃ r, send_request "http://host" payload_one_content = Except.ok r
        ∧ r.body = payload_one_content.body.head? :=
  C5_amended_body_per_content_type "POST" "/x" "http://host" op_one_content []
    rb_one_content payload_one_content rfl
    (by
      simp [prepare_request, collect_params, op_one_content, rb_one_content,
        generate_body, schema_kind_to_json, schema_type_to_json, bool_arbitrary,
        u8_arbitrary, fill_buffer, le_bytes_to_nat, payload_one_content])

/-- C6 counterexample: for a payload whose path still contains the
placeholder of an unbound parameter after substitution, the claim requires
a construction error; the code instead builds the request successfully and
sends it with the placeholder left in the path. -/
theorem C6_unresolved_placeholder_silently_sent :
    send_request "http://host" payload_unres
      = Except.ok
          { method := "GET", url := "http://host/pets/\x7bid\x7d",
            path := "/pets/\x7bid\x7d", query := [], headers := [],
            body := none } := rfl

/-- C6 amended: every literal brace-wrapped occurrence of a path parameter's
name is replaced by its value (the template /pets/{id}/{owner} with id = 42
and owner = ann builds exactly /pets/42/ann), but a path that still contains
an unresolved placeholder is not a construction error: the request is built
and sent with the placeholder in place. -/
theorem C6_substitution_exact_unresolved_sent (base : String) :
    substitute_path_params "/pets/\x7bid\x7d/\x7bowner\x7d"
        [("id", "42"), ("owner", "ann")]
      = "/pets/42/ann"
    ∧ (∃ r, send_request base payload_pets = Except.ok r
        ∧ r.path = "/pets/42/ann")
    ∧ ∃ r, send_request base payload_unres = Except.ok r
        ∧ r.path = "/pets/\x7bid\x7d" :=
  ⟨rfl, ⟨_, rfl, rfl⟩, ⟨_, rfl, rfl⟩⟩

/-- C7: when generation of an object schema with distinct declared property
names succeeds, the resulting value is an object whose key list is exactly
the declared property name list — no extra and no missing keys, in declared
order. -/
theorem C7_object_keys_exactly_declared (props : List (String × SchemaKind))
    (g g' : Unstructured) (j : Json)
    (hnd : (props.map Prod.fst).Nodup)
    (h : schema_type_to_json (SchemaType.object props) g = Except.ok (j, g')) :
    ∃ fields, j = Json.obj fields ∧ fields.map Prod.fst = props.map Prod.fst := by
  simp only [schema_type_to_json] at h
  cases heq : generate_json_fields props [] g with
  | error e =>
    rw [heq] at h
    simp at h
  | ok pr =>
    obtain ⟨fields, g1⟩ := pr
    rw [heq] at h
    dsimp only at h
    simp at h
    obtain ⟨hj, hg⟩ := h
    subst hj
    refine ⟨fields, rfl, ?_⟩
    simpa using generate_json_fields_keys props [] g g1 fields (by simpa using hnd) heq

/-- C7 witness: the object schema with boolean properties a and b generates
an object whose keys are exactly a and b. -/
theorem C7_object_keys_exactly_declared_witness :
    ∃ fields,
      Json.obj [("a", Json.bool false), ("b", Json.bool false)] = Json.obj fields
      ∧ fields.map Prod.fst
          = ([("a", SchemaKind.type SchemaType.boolean),
              ("b", SchemaKind.type SchemaType.boolean)].map Prod.fst :
              List String) :=
  C7_object_keys_exactly_declared
    [("a", SchemaKind.type SchemaType.boolean),
     ("b", SchemaKind.type SchemaType.boolean)]
    ⟨[]⟩ ⟨[]⟩ (Json.obj [("a", Json.bool false), ("b", Json.bool false)])
    (by simp)
    (by
      simp [schema_type_to_json, generate_json_fields, schema_kind_to_json,
        bool_arbitrary, u8_arbitrary, fill_buffer, le_bytes_to_nat, map_insert])

/-- C8: an operation declaring no request body yields a payload whose body
is the empty sequence, and the built request carries no body. -/
theorem C8_no_declared_body_builds_bodyless_request (m pth base : String)
    (op : Operation) (bytes : List Nat) (h : op.request_body = none) :
    ∃ p, prepare_request m pth op bytes = Except.ok p ∧ p.body = []
      ∧ ∃ r, send_request base p = Except.ok r ∧ r.body = none := by
  rcases hcp : collect_params op.parameters ⟨bytes⟩ with ⟨⟨q, pa, hdrs, cs⟩, g1⟩
  refine ⟨{ method := m, path := pth, query_params := q, path_params := pa,
            headers := hdrs, cookies := cs, body := [],
            responses := op.responses },
          ?_, rfl, ⟨_, rfl, rfl⟩⟩
  simp [prepare_request, hcp, h]

/-- C8 witness: the bodyless operation produces an empty body and a request
with no body. -/
theorem C8_no_declared_body_builds_bodyless_request_witness :
    ∃ p, prepare_request "GET" "/health" op_no_body [] = Except.ok p
      ∧ p.body = []
      ∧ ∃ r, send_request "http://host" p = Except.ok r ∧ r.body = none :=
  C8_no_declared_body_builds_bodyless_request "GET" "/health" "http://host"
    op_no_body [] rfl

/-- C9: the claim says generated cookies are exercised in the built request.
The request builder never consults the payload's cookies: the built request
is identical whether the cookies are present or emptied, and its headers are
exactly the payload's header parameters, so cookies are silently dropped. -/
theorem C9_cookies_never_reach_request (base : String) (p : Payload) :
    send_request base p = send_request base { p with cookies := [] }
    ∧ ∃ r, send_request base p = Except.ok r
        ∧ r.headers = p.headers ∧ r.query = p.query_params :=
  ⟨rfl, ⟨_, rfl, rfl, rfl⟩⟩
